import Mathlib

/-!
Shallow embedding of `src/frontend/src/App.js` of the IoT-Career-Roadmap
repository (a single React component plus CSS).

The component state (React `useState` hooks, App.js lines 9-14) becomes a
record `AppState`; the two asynchronous handlers `fetchData` (lines 20-33)
and `fetchLevelDetails` (lines 35-43) become pure functions from the state
and the awaited server responses to the next state together with the list
of `console.error` log lines they emit; the JSX render functions become
pure functions from `AppState` to view values.  Strings model the JS
strings delivered by the backend; `Except String` models a settled axios
promise (resolved payload or rejection).
-/

namespace IoTRoadmap

/-- One roadmap level as delivered by `GET /api/roadmap` (fields as read by
`VisualRoadmap`, App.js lines 82-142, and `LevelDetails`, lines 150-270). -/
structure RoadmapLevel where
  id : String
  level_number : Nat
  title : String
  description : String
  difficulty_level : String
  estimated_duration_months : Nat
  skills_to_develop : List String
  projects_to_complete : List String
  specialization_paths : List String
  milestone_achievements : List String
deriving DecidableEq

/-- A skill record of the level-detail bundle (fields read at App.js lines 175-184). -/
structure Skill where
  id : String
  name : String
  description : String
  category : String
  estimated_time_hours : Nat
deriving DecidableEq

/-- A course record of the level-detail bundle (fields read at App.js lines 194-206). -/
structure Course where
  id : String
  title : String
  description : String
  provider : String
  duration_weeks : Nat
  cost : String
deriving DecidableEq

/-- A project record of the level-detail bundle (fields read at App.js lines 216-229). -/
structure Project where
  id : String
  title : String
  description : String
  estimated_time_weeks : Nat
  technologies_used : List String
deriving DecidableEq

/-- A career-role record of the level-detail bundle (fields read at App.js lines 239-248). -/
structure Role where
  id : String
  title : String
  description : String
  salary_range : String
  industry_demand : String
deriving DecidableEq

/-- An industry-insight record as delivered by `GET /api/industry-insights`
(fields read by `IndustryInsights`, App.js lines 281-331). -/
structure IndustryInsight where
  id : String
  specialization : String
  market_size : String
  growth_rate : String
  avg_salary : String
  key_trends : List String
  major_companies : List String
  future_outlook : String
deriving DecidableEq

/-- The bundle delivered by `GET /api/roadmap/level/{levelId}` and stored in
the `levelDetails` state (read by `LevelDetails`, App.js lines 150-270). -/
structure LevelDetailsBundle where
  level : RoadmapLevel
  skills : List Skill
  courses : List Course
  projects : List Project
  roles : List Role
deriving DecidableEq

/-- The component state: the six `useState` hooks of App.js lines 9-14. -/
structure AppState where
  roadmapData : List RoadmapLevel
  selectedLevel : Option String
  levelDetails : Option LevelDetailsBundle
  industryInsights : List IndustryInsight
  loading : Bool
  activeTab : String
deriving DecidableEq

/-- The initial values of the six hooks (App.js lines 9-14). -/
def initialState : AppState :=
  { roadmapData := []
    selectedLevel := none
    levelDetails := none
    industryInsights := []
    loading := true
    activeTab := "roadmap" }

/-- `Promise.all` over two settled promises (App.js lines 22-25): resolves
with the pair when both resolve, rejects with a rejection otherwise. -/
def promiseAll2 {α β : Type} (a : Except String α) (b : Except String β) :
    Except String (α × β) :=
  match a, b with
  | Except.ok x, Except.ok y => Except.ok (x, y)
  | Except.error e, _ => Except.error e
  | Except.ok _, Except.error e => Except.error e

/-- `fetchData` (App.js lines 20-33): awaits the two startup requests jointly;
on success stores both payloads and clears `loading`; on failure logs
`"Error fetching data:"` with the error and clears `loading`.  The awaited
responses are the two arguments; the second component is the emitted log. -/
def fetchData (s : AppState) (roadmapRes : Except String (List RoadmapLevel))
    (insightsRes : Except String (List IndustryInsight)) : AppState × List String :=
  match promiseAll2 roadmapRes insightsRes with
  | Except.ok (roadmap, insights) =>
      ({ s with roadmapData := roadmap, industryInsights := insights, loading := false }, [])
  | Except.error e =>
      ({ s with loading := false }, ["Error fetching data: " ++ e])

/-- The URL of the level-detail request (App.js line 37,
backtick-template `API/roadmap/level/levelId`); `api` stands for the
`API` constant of App.js line 6. -/
def levelDetailsUrl (api : String) (levelId : String) : String :=
  api ++ "/roadmap/level/" ++ levelId

/-- `fetchLevelDetails` (App.js lines 35-43): issues `GET` on the URL keyed by
`levelId` against `server`; on success stores the bundle in `levelDetails`
and the id in `selectedLevel`; on failure logs `"Error fetching level details:"`
and leaves the state untouched. -/
def fetchLevelDetails (api : String) (server : String → Except String LevelDetailsBundle)
    (s : AppState) (levelId : String) : AppState × List String :=
  match server (levelDetailsUrl api levelId) with
  | Except.ok d =>
      ({ s with levelDetails := some d, selectedLevel := some levelId }, [])
  | Except.error e =>
      (s, ["Error fetching level details: " ++ e])

/-- `getLevelColor` (App.js lines 45-53): the JS `switch` on the difficulty
string, written as the equivalent equality chain. -/
def getLevelColor (difficulty : String) : String :=
  if difficulty = "beginner" then "from-green-400 to-green-600"
  else if difficulty = "intermediate" then "from-blue-400 to-blue-600"
  else if difficulty = "advanced" then "from-purple-400 to-purple-600"
  else if difficulty = "expert" then "from-red-400 to-red-600"
  else "from-gray-400 to-gray-600"

/-- `getDifficultyIcon` (App.js lines 55-63). -/
def getDifficultyIcon (difficulty : String) : String :=
  if difficulty = "beginner" then "🌱"
  else if difficulty = "intermediate" then "🚀"
  else if difficulty = "advanced" then "⚡"
  else if difficulty = "expert" then "👑"
  else "📚"

/-- `setActiveTab` call of a tab button (App.js lines 354 and 364). -/
def setActiveTab (s : AppState) (tab : String) : AppState :=
  { s with activeTab := tab }

/-- The close-button handler of the modal (App.js line 158):
`setSelectedLevel(null); setLevelDetails(null)`. -/
def closeDetails (s : AppState) : AppState :=
  { s with selectedLevel := none, levelDetails := none }

/-- JS truthiness of the `selectedLevel` hook value (used by
`{selectedLevel && <LevelDetails />}` at App.js line 384): `null` and the
empty string are falsy, every other string is truthy. -/
def jsTruthyStr : Option String → Bool
  | none => false
  | some s => s != ""

/-- JS `String.prototype.replace` with a string pattern replaces only the
first occurrence (used at App.js lines 128 and 284). -/
def jsReplaceFirst (s pat rep : String) : String :=
  match s.splitOn pat with
  | [] => s
  | [x] => x
  | x :: y :: rest => x ++ rep ++ String.intercalate pat (y :: rest)

/-- One rendered roadmap card together with its level-number circle
(one iteration of `roadmapData.map((level, index) => ...)`, App.js lines 82-141). -/
structure LevelCard where
  levelId : String
  justifyStart : Bool
  onClickLevelId : String
  colorClass : String
  icon : String
  headingText : String
  difficultyText : String
  durationText : String
  title : String
  description : String
  skillsCountText : String
  projectsCountText : String
  specializationBadges : List String
  circleHighlighted : Bool
  circleNumber : Nat
deriving DecidableEq

/-- The card of one level at one list index (App.js lines 82-141): the layout
class alternates on `index % 2`, the click handler captures `level.id`, the
gradient and icon come from the difficulty lookups, and the circle is
highlighted when `selectedLevel === level.id`. -/
def mkLevelCard (s : AppState) (index : Nat) (level : RoadmapLevel) : LevelCard :=
  { levelId := level.id
    justifyStart := index % 2 = 0
    onClickLevelId := level.id
    colorClass := getLevelColor level.difficulty_level
    icon := getDifficultyIcon level.difficulty_level
    headingText := "Level " ++ toString level.level_number
    difficultyText := level.difficulty_level
    durationText := toString level.estimated_duration_months ++ " months"
    title := level.title
    description := level.description
    skillsCountText := toString level.skills_to_develop.length ++ " skills"
    projectsCountText := toString level.projects_to_complete.length ++ " projects"
    specializationBadges :=
      level.specialization_paths.map (fun p => (jsReplaceFirst p "_" " ").toUpper)
    circleHighlighted := s.selectedLevel = some level.id
    circleNumber := level.level_number }

/-- `roadmapData.map((level, index) => ...)` (App.js line 82), with the JS map
index made explicit. -/
def renderLevelCards (s : AppState) : List RoadmapLevel → Nat → List LevelCard
  | [], _ => []
  | level :: rest, index => mkLevelCard s index level :: renderLevelCards s rest (index + 1)

/-- The `VisualRoadmap` panel (App.js lines 65-145): one card per element of
`roadmapData`. -/
def renderVisualRoadmap (s : AppState) : List LevelCard :=
  renderLevelCards s s.roadmapData 0

/-- One rendered industry-insight card (one iteration of
`industryInsights.map(insight => ...)`, App.js lines 281-331). -/
structure InsightCard where
  insightId : String
  heading : String
  marketSize : String
  growthRate : String
  avgSalary : String
  keyTrends : List String
  majorCompanies : List String
  futureOutlook : String
deriving DecidableEq

/-- The card of one insight (App.js lines 281-331); the heading replaces the
first underscore of the specialization tag with a space (line 284). -/
def mkInsightCard (insight : IndustryInsight) : InsightCard :=
  { insightId := insight.id
    heading := jsReplaceFirst insight.specialization "_" " "
    marketSize := insight.market_size
    growthRate := insight.growth_rate
    avgSalary := insight.avg_salary
    keyTrends := insight.key_trends
    majorCompanies := insight.major_companies
    futureOutlook := insight.future_outlook }

/-- The `IndustryInsights` panel (App.js lines 273-334): one card per element
of `industryInsights`. -/
def renderIndustryInsights (s : AppState) : List InsightCard :=
  s.industryInsights.map mkInsightCard

/-- A rendered skill entry of the modal (App.js lines 175-184). -/
structure SkillCard where
  skillId : String
  name : String
  description : String
  category : String
  hoursText : String
deriving DecidableEq

/-- A rendered course entry of the modal (App.js lines 194-206). -/
structure CourseCard where
  courseId : String
  title : String
  description : String
  provider : String
  weeksText : String
  cost : String
deriving DecidableEq

/-- A rendered project entry of the modal (App.js lines 216-229). -/
structure ProjectCard where
  projectId : String
  title : String
  description : String
  weeksText : String
  technologies : List String
deriving DecidableEq

/-- A rendered career-role entry of the modal (App.js lines 239-248). -/
structure RoleCard where
  roleId : String
  title : String
  description : String
  salaryRange : String
  demandText : String
deriving DecidableEq

/-- The level-detail modal (App.js lines 150-270): header
`"{title} - Level {level_number}"` (lines 154-156) and one entry per element
of each bundle list. -/
structure ModalView where
  header : String
  description : String
  skillCards : List SkillCard
  courseCards : List CourseCard
  projectCards : List ProjectCard
  roleCards : List RoleCard
  milestones : List String
deriving DecidableEq

/-- The modal built from a stored bundle (App.js lines 150-270). -/
def mkModalView (d : LevelDetailsBundle) : ModalView :=
  { header := d.level.title ++ " - Level " ++ toString d.level.level_number
    description := d.level.description
    skillCards := d.skills.map (fun sk =>
      { skillId := sk.id, name := sk.name, description := sk.description
        category := sk.category, hoursText := toString sk.estimated_time_hours ++ "h" })
    courseCards := d.courses.map (fun c =>
      { courseId := c.id, title := c.title, description := c.description
        provider := c.provider, weeksText := toString c.duration_weeks ++ "w", cost := c.cost })
    projectCards := d.projects.map (fun p =>
      { projectId := p.id, title := p.title, description := p.description
        weeksText := toString p.estimated_time_weeks ++ "w"
        technologies := p.technologies_used })
    roleCards := d.roles.map (fun r =>
      { roleId := r.id, title := r.title, description := r.description
        salaryRange := r.salary_range, demandText := r.industry_demand ++ " demand" })
    milestones := d.level.milestone_achievements }

/-- The `LevelDetails` component (App.js lines 147-271): renders nothing when
`levelDetails` is null (line 148), the modal otherwise. -/
def renderLevelDetails (s : AppState) : Option ModalView :=
  match s.levelDetails with
  | none => none
  | some d => some (mkModalView d)

/-- The whole page: either the loading spinner (App.js lines 336-345) or the
main page with its two conditional panels (lines 379-380) and the conditional
modal (line 384). -/
inductive PageView where
  | loadingScreen
  | mainPage (roadmapPanel : Option (List LevelCard))
      (insightsPanel : Option (List InsightCard)) (modal : Option ModalView)
deriving DecidableEq

/-- The `App` render (App.js lines 336-395): early spinner return while
`loading`; otherwise `activeTab === 'roadmap' && <VisualRoadmap />`,
`activeTab === 'insights' && <IndustryInsights />` and
`selectedLevel && <LevelDetails />`. -/
def renderApp (s : AppState) : PageView :=
  if s.loading then PageView.loadingScreen
  else PageView.mainPage
    (if s.activeTab = "roadmap" then some (renderVisualRoadmap s) else none)
    (if s.activeTab = "insights" then some (renderIndustryInsights s) else none)
    (if jsTruthyStr s.selectedLevel then renderLevelDetails s else none)

/-- How many top-level panels a page shows. -/
def panelCount : PageView → Nat
  | PageView.loadingScreen => 0
  | PageView.mainPage roadmapPanel insightsPanel _ =>
      (if roadmapPanel.isSome then 1 else 0) + (if insightsPanel.isSome then 1 else 0)

/-- How many detail views (modals) a page shows. -/
def modalCount : PageView → Nat
  | PageView.loadingScreen => 0
  | PageView.mainPage _ _ modal => if modal.isSome then 1 else 0

/-- The states the component can reach: the initial hook values; the single
`fetchData` completion fired by the mount effect (App.js lines 16-18), which
settles while the spinner page is shown; and the click handlers, each
available only when its element is rendered (so only when `loading` is
false, and a level card moreover only when the roadmap tab shows a card
with that id). -/
inductive Reachable : AppState → Prop where
  | init : Reachable initialState
  | dataLoaded (roadmapRes : Except String (List RoadmapLevel))
      (insightsRes : Except String (List IndustryInsight)) :
      Reachable (fetchData initialState roadmapRes insightsRes).1
  | clickTabRoadmap {s : AppState} : Reachable s → s.loading = false →
      Reachable (setActiveTab s "roadmap")
  | clickTabInsights {s : AppState} : Reachable s → s.loading = false →
      Reachable (setActiveTab s "insights")
  | clickLevelCard {s : AppState} (api : String)
      (server : String → Except String LevelDetailsBundle) (levelId : String) :
      Reachable s → s.loading = false → s.activeTab = "roadmap" →
      levelId ∈ s.roadmapData.map RoadmapLevel.id →
      Reachable (fetchLevelDetails api server s levelId).1
  | clickClose {s : AppState} : Reachable s → s.loading = false →
      jsTruthyStr s.selectedLevel = true → s.levelDetails.isSome →
      Reachable (closeDetails s)

/-! ### Helper lemmas -/

theorem fetchData_loading (s : AppState) (roadmapRes : Except String (List RoadmapLevel))
    (insightsRes : Except String (List IndustryInsight)) :
    (fetchData s roadmapRes insightsRes).1.loading = false := by
  simp only [fetchData]
  split <;> rfl

theorem fetchData_activeTab (s : AppState) (roadmapRes : Except String (List RoadmapLevel))
    (insightsRes : Except String (List IndustryInsight)) :
    (fetchData s roadmapRes insightsRes).1.activeTab = s.activeTab := by
  simp only [fetchData]
  split <;> rfl

theorem fetchLevelDetails_activeTab (api : String)
    (server : String → Except String LevelDetailsBundle) (s : AppState) (levelId : String) :
    (fetchLevelDetails api server s levelId).1.activeTab = s.activeTab := by
  simp only [fetchLevelDetails]
  split <;> rfl

theorem fetchLevelDetails_loading (api : String)
    (server : String → Except String LevelDetailsBundle) (s : AppState) (levelId : String) :
    (fetchLevelDetails api server s levelId).1.loading = s.loading := by
  simp only [fetchLevelDetails]
  split <;> rfl

theorem renderLevelCards_length (s : AppState) (levels : List RoadmapLevel) (i : Nat) :
    (renderLevelCards s levels i).length = levels.length := by
  induction levels generalizing i with
  | nil => rfl
  | cons a t ih => simp [renderLevelCards, ih]

theorem renderLevelCards_map_onClick (s : AppState) (levels : List RoadmapLevel) (i : Nat) :
    (renderLevelCards s levels i).map LevelCard.onClickLevelId
      = levels.map RoadmapLevel.id := by
  induction levels generalizing i with
  | nil => rfl
  | cons a t ih => simp [renderLevelCards, mkLevelCard, ih]

theorem string_append_cancel_left {a b c : String} (h : a ++ b = a ++ c) : b = c := by
  have hd : (a ++ b).data = (a ++ c).data := congrArg String.data h
  rw [String.data_append, String.data_append] at hd
  exact String.ext (List.append_cancel_left hd)

theorem panelCount_renderApp {s : AppState} (hl : s.loading = false)
    (ht : s.activeTab = "roadmap" ∨ s.activeTab = "insights") :
    panelCount (renderApp s) = 1 := by
  rcases ht with h | h <;> simp [renderApp, hl, h, panelCount]

/-! ### Sample data for the closed witness statements -/

def sampleLevel : RoadmapLevel :=
  { id := "2"
    level_number := 2
    title := "IoT Edge Computing"
    description := "Work with gateways and edge analytics"
    difficulty_level := "intermediate"
    estimated_duration_months := 6
    skills_to_develop := ["mqtt", "edge analytics"]
    projects_to_complete := ["gateway build"]
    specialization_paths := ["industrial_iot"]
    milestone_achievements := ["first gateway deployed"] }

def sampleSkill : Skill :=
  { id := "s1"
    name := "MQTT"
    description := "Publish and subscribe messaging"
    category := "protocols"
    estimated_time_hours := 20 }

def sampleBundle : LevelDetailsBundle :=
  { level := sampleLevel
    skills := [sampleSkill]
    courses := []
    projects := []
    roles := [] }

def sampleInsight : IndustryInsight :=
  { id := "i1"
    specialization := "smart_home"
    market_size := "$80B"
    growth_rate := "25%"
    avg_salary := "$110k"
    key_trends := ["matter"]
    major_companies := ["Acme"]
    future_outlook := "growing" }

/-- A backend stub that answers only the detail URL of level `"2"`. -/
def sampleServer : String → Except String LevelDetailsBundle :=
  fun url =>
    if url = levelDetailsUrl "http://backend/api" "2" then Except.ok sampleBundle
    else Except.error "404"

/-- A reachable state with both startup collections loaded. -/
def sampleLoadedState : AppState :=
  (fetchData initialState (Except.ok [sampleLevel]) (Except.ok [sampleInsight])).1

/-- A state with the level-`"2"` detail view open. -/
def sampleOpenState : AppState :=
  { roadmapData := [sampleLevel]
    selectedLevel := some "2"
    levelDetails := some sampleBundle
    industryInsights := [sampleInsight]
    loading := false
    activeTab := "roadmap" }

/-! ### Claim theorems -/

/-- C1: for every outcome of the initial data fetch (both startup requests
succeed, or the joint await fails), after `fetchData` completes the loading
flag is false; in particular a failed initial fetch still clears it. -/
theorem c1_fetchData_always_clears_loading (s : AppState)
    (roadmapRes : Except String (List RoadmapLevel))
    (insightsRes : Except String (List IndustryInsight)) :
    (fetchData s roadmapRes insightsRes).1.loading = false :=
  fetchData_loading s roadmapRes insightsRes

/-- C2: every failing request is logged and leaves the loading flag false.
If either startup request fails, `fetchData` logs `"Error fetching data:"`
with the error and clears the loading flag; if the level-detail request
fails, `fetchLevelDetails` logs `"Error fetching level details:"` with the
error and the loading flag is false afterwards (the handler runs only from
a rendered card, hence from a state whose loading flag is already false,
and it does not touch the flag). -/
theorem c2_failed_request_logs_and_loading_false :
    (∀ (s : AppState) (roadmapRes : Except String (List RoadmapLevel))
        (insightsRes : Except String (List IndustryInsight)),
      ((∃ e, roadmapRes = Except.error e) ∨ (∃ e, insightsRes = Except.error e)) →
      (∃ e, (fetchData s roadmapRes insightsRes).2 = ["Error fetching data: " ++ e]) ∧
        (fetchData s roadmapRes insightsRes).1.loading = false) ∧
    (∀ (api : String) (server : String → Except String LevelDetailsBundle)
        (s : AppState) (levelId e : String),
      s.loading = false →
      server (levelDetailsUrl api levelId) = Except.error e →
      (fetchLevelDetails api server s levelId).2
          = ["Error fetching level details: " ++ e] ∧
        (fetchLevelDetails api server s levelId).1.loading = false) := by
  constructor
  · intro s roadmapRes insightsRes hfail
    refine ⟨?_, fetchData_loading s roadmapRes insightsRes⟩
    rcases hfail with ⟨e, rfl⟩ | ⟨e, rfl⟩
    · exact ⟨e, by simp [fetchData, promiseAll2]⟩
    · cases roadmapRes with
      | ok r => exact ⟨e, by simp [fetchData, promiseAll2]⟩
      | error e2 => exact ⟨e2, by simp [fetchData, promiseAll2]⟩
  · intro api server s levelId e hloading herr
    constructor
    · simp [fetchLevelDetails, herr]
    · rw [fetchLevelDetails_loading]
      exact hloading

/-- Witness for C2 at concrete inputs: a failed startup fetch from the
initial state, and a failed level-detail request from a loaded state. -/
theorem c2_witness :
    ((∃ e, (fetchData initialState (Except.error "network down") (Except.ok [])).2
        = ["Error fetching data: " ++ e]) ∧
      (fetchData initialState (Except.error "network down") (Except.ok [])).1.loading
        = false) ∧
    ((fetchLevelDetails "http://backend/api" (fun _ => Except.error "network down")
        sampleLoadedState "2").2 = ["Error fetching level details: " ++ "network down"] ∧
      (fetchLevelDetails "http://backend/api" (fun _ => Except.error "network down")
        sampleLoadedState "2").1.loading = false) :=
  ⟨c2_failed_request_logs_and_loading_false.1 initialState _ _
      (Or.inl ⟨"network down", rfl⟩),
    c2_failed_request_logs_and_loading_false.2 "http://backend/api" _
      sampleLoadedState "2" "network down" rfl rfl⟩

/-- C3: on success of both startup requests, `fetchData` clears the loading
flag and stores each payload, and each panel renders exactly one card per
element of its collection (full item counts). -/
theorem c3_success_stores_and_renders_full_counts (s : AppState)
    (roadmap : List RoadmapLevel) (insights : List IndustryInsight) :
    (fetchData s (Except.ok roadmap) (Except.ok insights)).1.loading = false ∧
    (fetchData s (Except.ok roadmap) (Except.ok insights)).1.roadmapData = roadmap ∧
    (fetchData s (Except.ok roadmap) (Except.ok insights)).1.industryInsights = insights ∧
    (renderVisualRoadmap (fetchData s (Except.ok roadmap) (Except.ok insights)).1).length
      = roadmap.length ∧
    (renderIndustryInsights (fetchData s (Except.ok roadmap) (Except.ok insights)).1).length
      = insights.length := by
  refine ⟨rfl, rfl, rfl, ?_, ?_⟩
  · exact renderLevelCards_length _ roadmap 0
  · simp [renderIndustryInsights, fetchData, promiseAll2]

/-- C4: every rendered level card's click handler calls `fetchLevelDetails`
with that card's level id, the issued request URL is
`api ++ "/roadmap/level/" ++ X`, and on success the returned bundle is
stored in `levelDetails` while `selectedLevel` is set to the id. -/
theorem c4_click_fetches_and_stores_by_id :
    (∀ s : AppState, (renderVisualRoadmap s).map LevelCard.onClickLevelId
        = s.roadmapData.map RoadmapLevel.id) ∧
    (∀ api levelId : String,
      levelDetailsUrl api levelId = api ++ "/roadmap/level/" ++ levelId) ∧
    (∀ (api : String) (server : String → Except String LevelDetailsBundle)
        (s : AppState) (levelId : String) (d : LevelDetailsBundle),
      server (levelDetailsUrl api levelId) = Except.ok d →
      (fetchLevelDetails api server s levelId).1.levelDetails = some d ∧
      (fetchLevelDetails api server s levelId).1.selectedLevel = some levelId) := by
  refine ⟨fun s => renderLevelCards_map_onClick s s.roadmapData 0, fun _ _ => rfl, ?_⟩
  intro api server s levelId d hok
  constructor <;> simp [fetchLevelDetails, hok]

/-- Witness for C4: the stub backend answers the request keyed by id `"2"`
and the bundle lands in the state next to the selection. -/
theorem c4_witness :
    (fetchLevelDetails "http://backend/api" sampleServer
        sampleLoadedState "2").1.levelDetails = some sampleBundle ∧
    (fetchLevelDetails "http://backend/api" sampleServer
        sampleLoadedState "2").1.selectedLevel = some "2" :=
  c4_click_fetches_and_stores_by_id.2.2 "http://backend/api" sampleServer
    sampleLoadedState "2" sampleBundle rfl

/-- Modelled from the spec: the backend is not under `src/`; spec sections 6
and 8 describe its level-detail endpoint, keyed by the level identifier, as
returning a bundle whose `level.id` equals the requested id ("Given a
level-detail request for id X, the returned bundle's level.id equals X"). -/
def serverDetailContract (api : String)
    (server : String → Except String LevelDetailsBundle) : Prop :=
  ∀ levelId d, server (levelDetailsUrl api levelId) = Except.ok d → d.level.id = levelId

/-- The stub backend satisfies the spec-modelled endpoint contract. -/
theorem sampleServer_contract : serverDetailContract "http://backend/api" sampleServer := by
  intro levelId d h
  unfold sampleServer at h
  by_cases hc : levelDetailsUrl "http://backend/api" levelId
      = levelDetailsUrl "http://backend/api" "2"
  · rw [if_pos hc] at h
    injection h with h2
    have hid : levelId = "2" := by
      unfold levelDetailsUrl at hc
      exact string_append_cancel_left hc
    rw [← h2, hid]
    rfl
  · rw [if_neg hc] at h
    exact absurd h (by simp)

/-- C5: against a backend meeting the spec-modelled endpoint contract, a
successful level-detail fetch for id X stores a bundle whose `level.id` is X,
and the modal rendered from it carries that level's title in its header. -/
theorem c5_stored_bundle_matches_id_and_modal_title (api : String)
    (server : String → Except String LevelDetailsBundle) (s : AppState)
    (levelId : String) (d : LevelDetailsBundle)
    (hcontract : serverDetailContract api server)
    (hok : server (levelDetailsUrl api levelId) = Except.ok d) :
    (fetchLevelDetails api server s levelId).1.levelDetails = some d ∧
    d.level.id = levelId ∧
    renderLevelDetails (fetchLevelDetails api server s levelId).1
      = some (mkModalView d) ∧
    (mkModalView d).header
      = d.level.title ++ " - Level " ++ toString d.level.level_number := by
  refine ⟨by simp [fetchLevelDetails, hok], hcontract levelId d hok, ?_, rfl⟩
  simp [renderLevelDetails, fetchLevelDetails, hok]

/-- Witness for C5 at the stub backend and id `"2"`. -/
theorem c5_witness :
    (fetchLevelDetails "http://backend/api" sampleServer
        sampleOpenState "2").1.levelDetails = some sampleBundle ∧
    sampleBundle.level.id = "2" ∧
    renderLevelDetails (fetchLevelDetails "http://backend/api" sampleServer
        sampleOpenState "2").1 = some (mkModalView sampleBundle) ∧
    (mkModalView sampleBundle).header = sampleBundle.level.title ++ " - Level "
      ++ toString sampleBundle.level.level_number :=
  c5_stored_bundle_matches_id_and_modal_title "http://backend/api" sampleServer
    sampleOpenState "2" sampleBundle sampleServer_contract rfl

/-- C6: with the page loaded, a truthy selection and a stored bundle render
exactly one detail view; the close handler nulls both `selectedLevel` and
`levelDetails`, after which no detail view is rendered. -/
theorem c6_one_modal_and_close_clears :
    (∀ (s : AppState) (levelId : String) (d : LevelDetailsBundle),
      s.loading = false → s.selectedLevel = some levelId → levelId ≠ "" →
      s.levelDetails = some d → modalCount (renderApp s) = 1) ∧
    (∀ s : AppState,
      (closeDetails s).selectedLevel = none ∧ (closeDetails s).levelDetails = none ∧
      modalCount (renderApp (closeDetails s)) = 0) := by
  constructor
  · intro s levelId d hloading hsel hne hd
    simp [renderApp, hloading, modalCount, jsTruthyStr, hsel, hne,
      renderLevelDetails, hd]
  · intro s
    refine ⟨rfl, rfl, ?_⟩
    cases hl : s.loading with
    | true => simp [renderApp, closeDetails, hl, modalCount]
    | false => simp [renderApp, closeDetails, hl, modalCount, jsTruthyStr]

/-- Witness for C6: the open sample state shows one modal; closing it shows
none. -/
theorem c6_witness :
    modalCount (renderApp sampleOpenState) = 1 ∧
    modalCount (renderApp (closeDetails sampleOpenState)) = 0 :=
  ⟨c6_one_modal_and_close_clears.1 sampleOpenState "2" sampleBundle rfl rfl
      (by decide) rfl,
    (c6_one_modal_and_close_clears.2 sampleOpenState).2.2⟩

/-- C7: in every reachable state the active tab is `"roadmap"` or
`"insights"`, so whenever the loading flag is false exactly one of the two
top-level panels is rendered. -/
theorem c7_single_active_panel (s : AppState) (hreach : Reachable s) :
    (s.activeTab = "roadmap" ∨ s.activeTab = "insights") ∧
    (s.loading = false → panelCount (renderApp s) = 1) := by
  induction hreach with
  | init =>
      refine ⟨Or.inl rfl, fun hl => ?_⟩
      simp [initialState] at hl
  | dataLoaded roadmapRes insightsRes =>
      have htab : (fetchData initialState roadmapRes insightsRes).1.activeTab
          = "roadmap" :=
        fetchData_activeTab initialState roadmapRes insightsRes
      exact ⟨Or.inl htab, fun hl => panelCount_renderApp hl (Or.inl htab)⟩
  | clickTabRoadmap hr hl ih =>
      exact ⟨Or.inl rfl, fun hl2 => panelCount_renderApp hl2 (Or.inl rfl)⟩
  | clickTabInsights hr hl ih =>
      exact ⟨Or.inr rfl, fun hl2 => panelCount_renderApp hl2 (Or.inr rfl)⟩
  | clickLevelCard api server levelId hr hl htab hmem ih =>
      have htab2 : (fetchLevelDetails api server _ levelId).1.activeTab = "roadmap" :=
        (fetchLevelDetails_activeTab api server _ levelId).trans htab
      exact ⟨Or.inl htab2, fun hl2 => panelCount_renderApp hl2 (Or.inl htab2)⟩
  | clickClose hr hl hsel hd ih =>
      exact ⟨ih.1, fun hl2 => panelCount_renderApp hl2 ih.1⟩

/-- Witness for C7 at the reachable loaded sample state. -/
theorem c7_witness : panelCount (renderApp sampleLoadedState) = 1 :=
  (c7_single_active_panel sampleLoadedState
    (Reachable.dataLoaded (Except.ok [sampleLevel]) (Except.ok [sampleInsight]))).2 rfl

/-- C8: the two difficulty lookups are total tables: each of the four enum
values maps to its gradient class and icon, and every other string maps to
the defaults. -/
theorem c8_difficulty_lookup_tables :
    (getLevelColor "beginner" = "from-green-400 to-green-600" ∧
      getLevelColor "intermediate" = "from-blue-400 to-blue-600" ∧
      getLevelColor "advanced" = "from-purple-400 to-purple-600" ∧
      getLevelColor "expert" = "from-red-400 to-red-600") ∧
    (getDifficultyIcon "beginner" = "🌱" ∧
      getDifficultyIcon "intermediate" = "🚀" ∧
      getDifficultyIcon "advanced" = "⚡" ∧
      getDifficultyIcon "expert" = "👑") ∧
    (∀ d : String,
      d ∉ (["beginner", "intermediate", "advanced", "expert"] : List String) →
      getLevelColor d = "from-gray-400 to-gray-600" ∧ getDifficultyIcon d = "📚") := by
  refine ⟨⟨rfl, rfl, rfl, rfl⟩, ⟨rfl, rfl, rfl, rfl⟩, ?_⟩
  intro d hd
  simp only [List.mem_cons, List.mem_singleton, not_or] at hd
  obtain ⟨h1, h2, h3, h4⟩ := hd
  constructor <;> simp [getLevelColor, getDifficultyIcon, h1, h2, h3, h4]

/-- Witness for C8 at a string outside the enum. -/
theorem c8_witness :
    getLevelColor "legendary" = "from-gray-400 to-gray-600" ∧
    getDifficultyIcon "legendary" = "📚" :=
  c8_difficulty_lookup_tables.2.2 "legendary" (by decide)

/-- C9: the initial fetch is all-or-nothing: if either startup request fails,
the joint await rejects and neither collection is stored, so both keep their
initial empty value. -/
theorem c9_failed_startup_keeps_collections_empty
    (roadmapRes : Except String (List RoadmapLevel))
    (insightsRes : Except String (List IndustryInsight))
    (hfail : (∃ e, roadmapRes = Except.error e) ∨ (∃ e, insightsRes = Except.error e)) :
    (fetchData initialState roadmapRes insightsRes).1.roadmapData = [] ∧
    (fetchData initialState roadmapRes insightsRes).1.industryInsights = [] := by
  rcases hfail with ⟨e, rfl⟩ | ⟨e, rfl⟩
  · simp [fetchData, promiseAll2, initialState]
  · cases roadmapRes <;> simp [fetchData, promiseAll2, initialState]

/-- Witness for C9: a failed roadmap request leaves both collections empty. -/
theorem c9_witness :
    (fetchData initialState (Except.error "network down")
        (Except.ok [sampleInsight])).1.roadmapData = [] ∧
    (fetchData initialState (Except.error "network down")
        (Except.ok [sampleInsight])).1.industryInsights = [] :=
  c9_failed_startup_keeps_collections_empty _ _ (Or.inl ⟨"network down", rfl⟩)

/-- C10: a failed level-detail request modifies nothing: the whole state is
returned unchanged, so the rendered page is unchanged as well. -/
theorem c10_failed_detail_fetch_is_atomic (api : String)
    (server : String → Except String LevelDetailsBundle) (s : AppState)
    (levelId e : String)
    (herr : server (levelDetailsUrl api levelId) = Except.error e) :
    (fetchLevelDetails api server s levelId).1 = s ∧
    renderApp (fetchLevelDetails api server s levelId).1 = renderApp s := by
  have hstate : (fetchLevelDetails api server s levelId).1 = s := by
    simp [fetchLevelDetails, herr]
  exact ⟨hstate, congrArg renderApp hstate⟩

/-- Witness for C10: a 404 on the detail request leaves the open sample
state intact. -/
theorem c10_witness :
    (fetchLevelDetails "http://backend/api" (fun _ => Except.error "404")
        sampleOpenState "9").1 = sampleOpenState ∧
    renderApp (fetchLevelDetails "http://backend/api" (fun _ => Except.error "404")
        sampleOpenState "9").1 = renderApp sampleOpenState :=
  c10_failed_detail_fetch_is_atomic "http://backend/api" _ sampleOpenState "9" "404" rfl

end IoTRoadmap
